import Mathlib

/-!
Verification of the build-o-tron CI control plane against its natural-language
specification. The definitions below are shallow embeddings of the Rust sources:
`ci-lib-core/src/sql.rs` (persistent data model), `src/src/main.rs` (webhook
ingress, push-event processing, the commit status page), `src/src/notifier.rs`
(notifier configs and outbound status calls) and `ci-ctl/src/main.rs` (the admin
CLI). The database context module (`dbctx`) is absent from the sources, so its
store operations are modelled from the specification, as marked in their doc
comments. External effects (the filesystem, the JSON text parser of serde_json,
HMAC-SHA256, outbound HTTP) are passed in as explicit function parameters.
-/

namespace Ci

/-- NameState from ci-lib-core/src/sql.rs: the state of a commit name. -/
inductive NameState
| Fresh
| Stale
| ShortSha
deriving Repr, DecidableEq

/-- TryFrom of u8 for NameState (ci-lib-core/src/sql.rs). -/
def NameState.try_from (value : Nat) : Except String NameState :=
  match value with
  | 0 => Except.ok NameState.Fresh
  | 1 => Except.ok NameState.Stale
  | 2 => Except.ok NameState.ShortSha
  | other => Except.error ("invalid name state: " ++ toString other)

/-- CommitName from ci-lib-core/src/sql.rs. -/
structure CommitName where
  name : String
  state : NameState
deriving Repr, DecidableEq

/-- CommitName::stale (ci-lib-core/src/sql.rs): self.state != NameState::Fresh. -/
def CommitName.stale (c : CommitName) : Bool :=
  c.state != NameState.Fresh

/-- CommitName::stringy (ci-lib-core/src/sql.rs). -/
def CommitName.stringy (c : CommitName) : String :=
  match c.state with
  | NameState.Fresh => c.name
  | NameState.Stale => c.name ++ " (stale)"
  | NameState.ShortSha => c.name

/-- RunState from ci-lib-core/src/sql.rs, stored as a small integer 0..=4. -/
inductive RunState
| Pending
| Started
| Finished
| Error
| Invalid
deriving Repr, DecidableEq

/-- The integer discriminant of a RunState (the value stored in the runs table). -/
def RunState.toU8 : RunState → Nat
| RunState.Pending => 0
| RunState.Started => 1
| RunState.Finished => 2
| RunState.Error => 3
| RunState.Invalid => 4

/-- TryFrom of u8 for RunState (ci-lib-core/src/sql.rs): an explicit validated
conversion of a stored run-state byte. -/
def RunState.try_from (value : Nat) : Except String RunState :=
  match value with
  | 0 => Except.ok RunState.Pending
  | 1 => Except.ok RunState.Started
  | 2 => Except.ok RunState.Finished
  | 3 => Except.ok RunState.Error
  | 4 => Except.ok RunState.Invalid
  | other => Except.error ("invalid job state: " ++ toString other)

/-- Whether an Except value is ok (Result::is_ok). -/
def except_is_ok {e a : Type} : Except e a → Bool
| Except.ok _ => true
| Except.error _ => false

/-- Repo from ci-lib-core/src/sql.rs. -/
structure Repo where
  id : Nat
  name : String
  default_run_preference : Option String
deriving Repr, DecidableEq

/-- Remote from ci-lib-core/src/sql.rs. -/
structure Remote where
  id : Nat
  repo_id : Nat
  remote_path : String
  remote_api : String
  remote_url : String
  remote_git_url : String
  notifier_config_path : String
deriving Repr, DecidableEq

/-- A row of the commits table (ci-lib-core/src/sql.rs CREATE_COMMITS_TABLE:
id plus globally unique sha). -/
structure Commit where
  id : Nat
  sha : String
deriving Repr, DecidableEq

/-- Job from ci-lib-core/src/sql.rs. The final `state` field is the raw state
column of the old-generation jobs table: src/src/main.rs handle_commit_status
reads it with `select id, state from jobs where commit_id=?1` (its Rust-side
declaration lives in the missing old src/src/sql.rs module). It is kept here as
the raw stored integer. -/
structure Job where
  id : Nat
  remote_id : Nat
  commit_id : Nat
  created_time : Nat
  source : Option String
  run_preferences : Option String
  state : Nat
deriving Repr, DecidableEq

/-- Run from ci-lib-core/src/sql.rs. The `host_preference` field is the runs
column referenced by the PENDING_RUNS query and by the spec (only matching
hosts may claim the run). -/
structure Run where
  id : Nat
  job_id : Nat
  artifacts_path : Option String
  state : RunState
  host_id : Option Nat
  create_time : Nat
  start_time : Option Nat
  complete_time : Option Nat
  build_token : Option String
  run_timeout : Option Nat
  build_result : Option Nat
  final_text : Option String
  host_preference : Option Nat
deriving Repr, DecidableEq

/-- The persistent store: one field per table used by the claims, plus the
sqlite AUTOINCREMENT counters of the mutated tables. -/
structure Store where
  repos : List Repo
  remotes : List Remote
  commits : List Commit
  jobs : List Job
  runs : List Run
  next_commit_id : Nat
  next_job_id : Nat
  next_run_id : Nat
deriving Repr, DecidableEq

/-- Modelled from the spec: `ensure_commit(sha) → (commit_id, was_new)`,
idempotent. The implementation lives in the missing dbctx module. -/
def Store.ensure_commit (s : Store) (sha : String) : (Nat × Bool) × Store :=
  match s.commits.find? (fun c => c.sha == sha) with
  | some c => ((c.id, false), s)
  | none =>
    ((s.next_commit_id, true),
      { s with
          commits := s.commits ++ [Commit.mk s.next_commit_id sha],
          next_commit_id := s.next_commit_id + 1 })

/-- Modelled from the spec: `new_job(remote_id, sha, source?, run_preferences?)`
ensures the commit row, then inserts a job; on conflict with an existing job for
the same (remote_id, commit_id) it returns the existing job and does not create
a duplicate. The implementation lives in the missing dbctx module. The
old-generation server stores state=0 (pending) on the new job row, per the
src/src/main.rs comment: create a new job (state=pending) for the commit ref.
Wall-clock creation time is external and recorded as 0 here. -/
def Store.new_job (s : Store) (remote_id : Nat) (sha : String)
    (source : Option String) (run_preferences : Option String) :
    (Nat × Nat) × Store :=
  let ensured := s.ensure_commit sha
  let commit_id := ensured.1.1
  let s1 := ensured.2
  match s1.jobs.find? (fun j => j.remote_id == remote_id && j.commit_id == commit_id) with
  | some j => ((j.id, commit_id), s1)
  | none =>
    ((s1.next_job_id, commit_id),
      { s1 with
          jobs := s1.jobs ++
            [Job.mk s1.next_job_id remote_id commit_id 0 source run_preferences 0],
          next_job_id := s1.next_job_id + 1 })

/-- Modelled from the spec: `new_run(job_id, host_preference?) → run` always
creates a Pending run on the given job. The implementation lives in the missing
dbctx module. Wall-clock creation time is external and recorded as 0 here. -/
def Store.new_run (s : Store) (job_id : Nat) (host_preference : Option Nat) :
    Run × Store :=
  let run : Run :=
    { id := s.next_run_id, job_id := job_id, artifacts_path := none,
      state := RunState.Pending, host_id := none, create_time := 0,
      start_time := none, complete_time := none, build_token := none,
      run_timeout := none, build_result := none, final_text := none,
      host_preference := host_preference }
  (run, { s with runs := s.runs ++ [run], next_run_id := s.next_run_id + 1 })

/-- A serde_json value, as far as the embedded handlers inspect one. -/
inductive JVal
| null
| bool (b : Bool)
| num (n : Int)
| str (s : String)
| arr (xs : List JVal)
| obj (fields : List (String × JVal))

/-- serde_json Value::as_str. -/
def JVal.as_str : JVal → Option String
| JVal.str s => some s
| _ => none

/-- Field lookup in a serde_json object map. -/
def jget (fields : List (String × JVal)) (key : String) : Option JVal :=
  (fields.find? (fun kv => kv.1 == key)).map Prod.snd

/-- GithubEvent from src/src/main.rs. -/
inductive GithubEvent
| Push (tip : String) (repo_name : String)
    (head_commit : List (String × JVal)) (pusher : List (String × JVal))
| Other

/-- Outcome of process_push_event: the HTTP status it returns, or a panic of
one of its expect/unwrap calls. -/
inductive PushOut
| ok
| notFound
| panicked (msg : String)
deriving Repr, DecidableEq

/-- The notifier fan-out loop at the end of process_push_event
(src/src/main.rs): each tell_pending_job result is unwrapped with
expect("can notify"), so the first failed notifier panics the handler. -/
def tell_all : List (Except String Unit) → PushOut
| [] => PushOut.ok
| Except.ok _ :: rest => tell_all rest
| Except.error _ :: _ => PushOut.panicked ("can notify")

/-- process_push_event from src/src/main.rs. The dbctx module is missing from
the sources, so new_job is the spec-modelled Store.new_job. Notifier resolution
and the outbound status HTTP calls are external (missing dbctx plus the
network); `notify` gives, per repo id, the result of tell_pending_job for each
notifier of that repo, in order. The owner route parameter is only logged by
the source and is not a parameter here; the event's repo_name shadows the route
repo parameter in the source, as it does here. -/
def process_push_event (s : Store) (event : GithubEvent)
    (notify : Nat → List (Except String Unit)) : PushOut × Store :=
  match event with
  | GithubEvent.Other => (PushOut.panicked ("process push event on non-push event"), s)
  | GithubEvent.Push sha repo _head_commit pusher =>
    match s.commits.find? (fun c => c.sha == sha) with
    | some _ => (PushOut.ok, s)
    | none =>
      let remote_url := "https://www.github.com/" ++ repo ++ ".git"
      match s.remotes.find? (fun r => r.remote_git_url == remote_url) with
      | none => (PushOut.notFound, s)
      | some remote =>
        match jget pusher ("email") with
        | none => (PushOut.panicked ("has email"), s)
        | some v =>
          match v.as_str with
          | none => (PushOut.panicked ("is str"), s)
          | some pusher_email =>
            let jobbed := s.new_job remote.id sha (some pusher_email) none
            let _job_id := jobbed.1.1
            let s1 := jobbed.2
            (tell_all (notify remote.repo_id), s1)

/-- JobState of the old-generation server. Its declaration is in the missing
old src/src/sql.rs module; the variants are those matched in
src/src/main.rs handle_commit_status, in discriminant order 0..=4
(the spec's RunState analog, with Complete in place of Finished). -/
inductive JobState
| Pending
| Started
| Complete
| Error
| Invalid
deriving Repr, DecidableEq

/-- The `unsafe transmute` of the stored job-state byte in
src/src/main.rs handle_commit_status. A discriminant outside 0..=4 is
undefined behavior in the source; that case is `none` here. -/
def JobState.transmute : Nat → Option JobState
| 0 => some JobState.Pending
| 1 => some JobState.Started
| 2 => some JobState.Complete
| 3 => some JobState.Error
| 4 => some JobState.Invalid
| _ => none

/-- The status span chosen by the match in handle_commit_status
(src/src/main.rs lines 222-235), verbatim. -/
def job_state_span : JobState → String
| JobState.Pending => "<span style=\x27color:#660;\x27>pending</span>"
| JobState.Started => "<span style=\x27color:#660;\x27>pending</span>"
| JobState.Complete => "<span style=\x27color:green;\x27>pass</span>"
| JobState.Error => "<span style=\x27color:red;\x27>pass</span>"
| JobState.Invalid => "<span style=\x27color:red;\x27>(server error)</span>"

/-- Outcome of handle_commit_status: 404 with its body, a panic of one of the
expect calls, undefined behavior from the transmute of an out-of-range state
byte, or 200 carrying the data interpolated into the HTML template (repo name,
status span, deployed flag); the fixed HTML skeleton around them is elided. -/
inductive StatusOut
| notFound (html : String)
| panicked (msg : String)
| undefinedBehavior
| ok (repo_name : String) (status_span : String) (deployed : Bool)
deriving Repr, DecidableEq

/-- handle_commit_status from src/src/main.rs: the GET /:owner/:repo/:sha
status page. The job is looked up by commit id alone (the remote row is queried
but not used to pick the job), and the stored state byte is converted by
unchecked transmute. -/
def handle_commit_status (s : Store) (owner repo sha : String) : StatusOut :=
  let remote_path := owner ++ "/" ++ repo
  match s.commits.find? (fun c => c.sha == sha) with
  | none => StatusOut.notFound ("<html><body>no such commit</body></html>")
  | some commit =>
    match s.remotes.find? (fun r => r.remote_path == remote_path) with
    | none => StatusOut.panicked ("can query")
    | some remote =>
      match s.jobs.find? (fun j => j.commit_id == commit.id) with
      | none => StatusOut.panicked ("can query")
      | some job =>
        match JobState.transmute job.state with
        | none => StatusOut.undefinedBehavior
        | some st =>
          match s.repos.find? (fun rp => rp.id == remote.repo_id) with
          | none => StatusOut.panicked ("can query")
          | some rp =>
            StatusOut.ok rp.name (job_state_span st) false

/-- The compile-time pre-shared-key array of src/src/main.rs line 36:
`const PSKS: &[&[u8]] = &[];` — empty. -/
def PSKS : List (List Nat) := []

/-- Value of one hex digit, as hex::decode accepts it. -/
def hex_digit (c : Char) : Option Nat :=
  if ('0' ≤ c ∧ c ≤ '9') then some (c.toNat - '0'.toNat)
  else if ('a' ≤ c ∧ c ≤ 'f') then some (c.toNat - 'a'.toNat + 10)
  else if ('A' ≤ c ∧ c ≤ 'F') then some (c.toNat - 'A'.toNat + 10)
  else none

/-- hex::decode on a character list: pairs of hex digits; odd length or a
non-hex character is an error. -/
def hex_decode_chars : List Char → Option (List Nat)
| [] => some []
| [_] => none
| c1 :: c2 :: rest =>
  match hex_digit c1, hex_digit c2, hex_decode_chars rest with
  | some hi, some lo, some tail => some ((16 * hi + lo) :: tail)
  | _, _, _ => none

/-- hex::decode on a string. -/
def hex_decode (s : String) : Option (List Nat) :=
  hex_decode_chars s.toList

/-- Outcome of handle_repo_event (src/src/main.rs): dispatch of the
authenticated event to handle_github_event, a 400, or a panic of one of its
expect calls. -/
inductive RepoEventOut
| dispatched (kind : String) (payload : JVal)
| badRequest
| panicked (msg : String)

/-- The PSK loop of handle_repo_event (src/src/main.rs lines 262-276): for each
psk, HMAC-SHA256 the body, hex-decode the sent header after its `sha256=`
prefix (panicking on invalid hex, per the expect), and compare. -/
def hmac_scan (hmac : List Nat → List Nat → List Nat) (body : List Nat)
    (sent_hmac : String) : List (List Nat) → Except String Bool
| [] => Except.ok false
| psk :: rest =>
  let result := hmac psk body
  match hex_decode (sent_hmac.drop 7) with
  | none => Except.error ("provided hmac is valid hex")
  | some decoded =>
    if decoded == result then Except.ok true
    else hmac_scan hmac body sent_hmac rest

/-- handle_repo_event from src/src/main.rs: POST /:owner/:repo webhook ingress.
The serde_json body parse and HMAC-SHA256 are external and passed in as
functions; the two headers are passed as already-decoded strings when present.
The handler parses the body, requires the X-Hub-Signature-256 header, scans the
compile-time PSKS array, and only then reads X-Github-Event and dispatches. -/
def handle_repo_event (parse_json : List Nat → Option JVal)
    (hmac : List Nat → List Nat → List Nat)
    (sig_header : Option String) (event_header : Option String)
    (body : List Nat) : RepoEventOut :=
  match parse_json body with
  | none => RepoEventOut.badRequest
  | some payload =>
    match sig_header with
    | none => RepoEventOut.badRequest
    | some sent_hmac =>
      match hmac_scan hmac body sent_hmac PSKS with
      | Except.error e => RepoEventOut.panicked e
      | Except.ok hmac_ok =>
        if !hmac_ok then RepoEventOut.badRequest
        else
          match event_header with
          | none => RepoEventOut.badRequest
          | some kind => RepoEventOut.dispatched kind payload

/-- NotifierConfig from src/src/notifier.rs: a serde untagged enum whose GitHub
variant holds only a token, and whose Email variant holds five fields (`from`
and `to` are Lean keywords, hence from_addr and to_addr). -/
inductive NotifierConfig
| GitHub (token : String)
| Email (username password mailserver from_addr to_addr : String)
deriving Repr, DecidableEq

/-- String field lookup in a serde_json object map. -/
def get_str (fields : List (String × JVal)) (key : String) : Option String :=
  match jget fields key with
  | some (JVal.str s) => some s
  | _ => none

/-- serde untagged deserialization of NotifierConfig (src/src/notifier.rs):
variants are tried in declaration order, GitHub first, and unknown fields are
ignored; a non-object or an object matching neither variant is an error. -/
def NotifierConfig.deserialize (j : JVal) : Option NotifierConfig :=
  match j with
  | JVal.obj fields =>
    match get_str fields ("token") with
    | some token => some (NotifierConfig.GitHub token)
    | none =>
      match get_str fields ("username"), get_str fields ("password"),
            get_str fields ("mailserver"), get_str fields ("from"),
            get_str fields ("to") with
      | some u, some p, some m, some f, some t =>
        some (NotifierConfig.Email u p m f t)
      | _, _, _, _, _ => none
  | _ => none

/-- NotifierConfig::github_from_file (src/src/notifier.rs): read the file,
deserialize it as an untagged NotifierConfig, and require the GitHub variant.
The filesystem read and the textual JSON parse are external parameters. -/
def NotifierConfig.github_from_file (read_file : String → Option String)
    (parse_json : String → Option JVal) (path : String) :
    Except String NotifierConfig :=
  match read_file path with
  | none => Except.error ("can\x27t read notifier config at " ++ path)
  | some bytes =>
    match (parse_json bytes).bind NotifierConfig.deserialize with
    | none => Except.error ("can\x27t deserialize notifier config at " ++ path)
    | some config =>
      match config with
      | NotifierConfig.GitHub _ => Except.ok config
      | _ =>
        Except.error ("config at " ++ path ++
          " doesn\x27t look like a github config (but was otherwise valid?)")

/-- The Validate command of ci-ctl/src/main.rs (lines 253-255): it prints "ok"
and the process exits 0; it takes no inputs and inspects nothing. The pair is
(exit code, printed line). -/
def validate_command : Nat × String := (0, "ok")

/-- JobAction::Rerun of ci-ctl/src/main.rs (lines 98-102):
`db.new_run(which as u64, None)` — the command-line argument is passed to
new_run directly as the job id. -/
def job_rerun (s : Store) (which : Nat) : Run × Store :=
  s.new_run which none

/-- Whether two job rows collide on the (remote_id, commit_id) pair. -/
def job_conflict (a b : Job) : Bool :=
  a.remote_id == b.remote_id && a.commit_id == b.commit_id

/-- No two job rows share a (remote_id, commit_id) pair. -/
def jobs_unique : List Job → Bool
| [] => true
| j :: rest => rest.all (fun k => !(job_conflict j k)) && jobs_unique rest

/-- C1 transcribed: for every POST carrying an X-Hub-Signature-256 header whose
body parses, the handler proceeds to event dispatch iff some pre-shared key of
the set known to the Store (the union of webhook_token values of GitHub-kind
notifier configs, `store_psks` here) yields an HMAC digest equal to the sent
digest. -/
def c1Claim : Prop :=
  ∀ (parse_json : List Nat → Option JVal) (hmac : List Nat → List Nat → List Nat)
    (store_psks : List (List Nat)) (sent : String) (kind : String)
    (body : List Nat) (payload : JVal),
    parse_json body = some payload →
    ((∃ k ∈ store_psks, some (hmac k body) = hex_decode (sent.drop 7)) ↔
      handle_repo_event parse_json hmac (some sent) (some kind) body
        = RepoEventOut.dispatched kind payload)

/-- C3 transcribed: an accepted (200) push event for a previously unseen commit
on a registered remote creates a commit row, a job, and exactly one initial
Pending run with no host preference. -/
def c3Claim : Prop :=
  ∀ (s : Store) (notify : Nat → List (Except String Unit)) (sha repo : String)
    (head_commit pusher : List (String × JVal)),
    s.commits.find? (fun c => c.sha == sha) = none →
    (s.remotes.find? (fun r => r.remote_git_url
        == ("https://www.github.com/" ++ repo ++ ".git"))).isSome = true →
    (process_push_event s (GithubEvent.Push sha repo head_commit pusher) notify).1
        = PushOut.ok →
    ((process_push_event s (GithubEvent.Push sha repo head_commit pusher)
        notify).2.commits.length = s.commits.length + 1
      ∧ (process_push_event s (GithubEvent.Push sha repo head_commit pusher)
          notify).2.jobs.length = s.jobs.length + 1
      ∧ (process_push_event s (GithubEvent.Push sha repo head_commit pusher)
          notify).2.runs.length = s.runs.length + 1
      ∧ ∃ r ∈ (process_push_event s (GithubEvent.Push sha repo head_commit pusher)
          notify).2.runs,
          r.state = RunState.Pending ∧ r.host_preference = none ∧ r ∉ s.runs)

/-- C5 transcribed: once the store mutations of a push webhook have succeeded
(fresh commit, registered remote, well-formed pusher email), the HTTP response
is 200 regardless of how the notifier invocations fare. -/
def c5Claim : Prop :=
  ∀ (s : Store) (notify : Nat → List (Except String Unit)) (sha repo : String)
    (head_commit pusher : List (String × JVal)) (rem : Remote) (email : String),
    s.commits.find? (fun c => c.sha == sha) = none →
    s.remotes.find? (fun r => r.remote_git_url
        == ("https://www.github.com/" ++ repo ++ ".git")) = some rem →
    jget pusher ("email") = some (JVal.str email) →
    (process_push_event s (GithubEvent.Push sha repo head_commit pusher) notify).1
      = PushOut.ok

/-- C7 transcribed: `job rerun <run_id>` on an existing run r creates a new
Pending run on r's owning job, leaving r and its job unchanged. -/
def c7Claim : Prop :=
  ∀ (s : Store) (r : Run), r ∈ s.runs →
    (job_rerun s r.id).1.job_id = r.job_id
    ∧ (job_rerun s r.id).1.state = RunState.Pending
    ∧ (job_rerun s r.id).2.jobs = s.jobs

/-- The GitHub config shape named by C8, transcribed from the spec: a JSON
object with string fields ci_server, token, webhook_token. -/
def c8_github_shape (j : JVal) : Prop :=
  ∃ fields, j = JVal.obj fields
    ∧ (get_str fields ("ci_server")).isSome = true
    ∧ (get_str fields ("token")).isSome = true
    ∧ (get_str fields ("webhook_token")).isSome = true

/-- The GitHub shape actually accepted by the loader in src/src/notifier.rs: an
object whose string field token exists (untagged matching, other fields
ignored). -/
def src_github_shape (j : JVal) : Prop :=
  ∃ fields t, j = JVal.obj fields ∧ get_str fields ("token") = some t

/-- C8 transcribed: loading a config file through the GitHub loader succeeds
exactly when the file parses to the { ci_server, token, webhook_token }
shape. -/
def c8Claim : Prop :=
  ∀ (read_file : String → Option String) (parse_json : String → Option JVal)
    (path : String),
    except_is_ok (NotifierConfig.github_from_file read_file parse_json path) = true ↔
    (∃ bytes j, read_file path = some bytes ∧ parse_json bytes = some j
      ∧ c8_github_shape j)

/-- C9 transcribed: run-state bytes round-trip through the validated
conversion, out-of-range bytes convert to an error, and no code path
reinterprets a raw state byte without validation — in particular the status
handler can never reach undefined behavior from a stored byte. -/
def c9Claim : Prop :=
  (∀ st : RunState, RunState.try_from st.toU8 = Except.ok st)
  ∧ (∀ b : Nat, 4 < b → except_is_ok (RunState.try_from b) = false)
  ∧ (∀ (s : Store) (owner repo sha : String),
      handle_commit_status s owner repo sha ≠ StatusOut.undefinedBehavior)

/-- A registered github remote for alice/foo, used by the concrete stores. -/
def exRemote : Remote :=
  { id := 1, repo_id := 1, remote_path := "alice/foo", remote_api := "github",
    remote_url := "https://www.github.com/alice/foo",
    remote_git_url := "https://www.github.com/alice/foo.git",
    notifier_config_path := "foo.config" }

/-- Store for the C2 witness: commit abc is known and already has a job on the
registered remote. -/
def c2store : Store :=
  { repos := [Repo.mk 1 ("foo") none], remotes := [exRemote],
    commits := [Commit.mk 1 ("abc")],
    jobs := [Job.mk 1 1 1 0 none none 0], runs := [],
    next_commit_id := 2, next_job_id := 2, next_run_id := 1 }

/-- A push event for commit abc on alice/foo with a well-formed pusher. -/
def exPush : GithubEvent :=
  GithubEvent.Push ("abc") ("alice/foo") [] [(("email"), JVal.str ("a@b.c"))]

/-- Notifier outcomes: no notifiers at all. -/
def noNotifiers : Nat → List (Except String Unit) := fun _ => []

/-- Store for C3/C5: the remote is registered but commit abc is unseen. -/
def c3store : Store :=
  { repos := [Repo.mk 1 ("foo") none], remotes := [exRemote],
    commits := [], jobs := [], runs := [],
    next_commit_id := 1, next_job_id := 1, next_run_id := 1 }

/-- Notifier outcomes for C5: the single notifier invocation fails. -/
def c5notify : Nat → List (Except String Unit) :=
  fun _ => [Except.error ("upstream 500")]

/-- Store for C4: commit abc has a job whose stored state byte is 3
(JobState::Error). -/
def c4store : Store :=
  { repos := [Repo.mk 1 ("foo") none], remotes := [exRemote],
    commits := [Commit.mk 1 ("abc")],
    jobs := [Job.mk 1 1 1 0 none none 3], runs := [],
    next_commit_id := 2, next_job_id := 2, next_run_id := 1 }

/-- Store for C9: commit abc has a job whose stored state byte is 5, outside
the enum's 0..=4 discriminant range. -/
def c9store : Store :=
  { repos := [Repo.mk 1 ("foo") none], remotes := [exRemote],
    commits := [Commit.mk 1 ("abc")],
    jobs := [Job.mk 1 1 1 0 none none 5], runs := [],
    next_commit_id := 2, next_job_id := 2, next_run_id := 1 }

/-- Store for C7: run 5 belongs to job 3. -/
def c7run : Run :=
  { id := 5, job_id := 3, artifacts_path := none, state := RunState.Started,
    host_id := some 1, create_time := 0, start_time := some 1,
    complete_time := none, build_token := some ("tok"), run_timeout := none,
    build_result := none, final_text := none, host_preference := none }

/-- Store for C7. -/
def c7store : Store :=
  { repos := [Repo.mk 1 ("foo") none], remotes := [exRemote],
    commits := [Commit.mk 1 ("abc")],
    jobs := [Job.mk 3 1 1 0 none none 0], runs := [c7run],
    next_commit_id := 2, next_job_id := 4, next_run_id := 6 }

/-- Filesystem for C6: every read fails (the remote's config file is absent
from the config directory). -/
def c6read : String → Option String := fun _ => none

/-- JSON text parse for C6 (never reached, since every read fails). -/
def c6parse : String → Option JVal := fun _ => none

/-- A token-only config file, the C8 counterexample input: it lacks ci_server
and webhook_token yet deserializes to the GitHub variant. -/
def c8json : JVal := JVal.obj [(("token"), JVal.str ("t"))]

/-- Filesystem for C8: a single one-line file. -/
def c8read : String → Option String := fun _ => some ("x")

/-- JSON text parse for C8: every file parses to the token-only object. -/
def c8parse : String → Option JVal := fun _ => some c8json

/-- An email-shaped config file, for the C8 witness. -/
def c8mailjson : JVal :=
  JVal.obj [(("username"), JVal.str ("u")), (("password"), JVal.str ("p")),
    (("mailserver"), JVal.str ("m")), (("from"), JVal.str ("f")),
    (("to"), JVal.str ("t"))]

/-- JSON text parse for the C8 witness: every file parses to the email-shaped
object. -/
def c8mailparse : String → Option JVal := fun _ => some c8mailjson

theorem tell_all_ok (l : List (Except String Unit))
    (h : ∀ x ∈ l, except_is_ok x = true) : tell_all l = PushOut.ok := by
  induction l with
  | nil => rfl
  | cons x rest ih =>
    cases x with
    | ok u => exact ih (fun y hy => h y (List.mem_cons_of_mem _ hy))
    | error e =>
      have hx := h _ (List.mem_cons_self _ _)
      simp [except_is_ok] at hx

theorem tell_all_err (l : List (Except String Unit))
    (h : ∃ x ∈ l, except_is_ok x = false) :
    tell_all l = PushOut.panicked ("can notify") := by
  induction l with
  | nil => simp at h
  | cons x rest ih =>
    cases x with
    | error e => rfl
    | ok u =>
      rcases h with ⟨y, hy, hv⟩
      rcases List.mem_cons.mp hy with rfl | hy
      · simp [except_is_ok] at hv
      · exact ih ⟨y, hy, hv⟩

theorem jobs_unique_append (l : List Job) (x : Job)
    (h : jobs_unique l = true) (h2 : ∀ j ∈ l, job_conflict j x = false) :
    jobs_unique (l ++ [x]) = true := by
  induction l with
  | nil => simp [jobs_unique]
  | cons j rest ih =>
    simp only [jobs_unique, Bool.and_eq_true, List.all_eq_true] at h
    have hx := h2 j (List.mem_cons_self j rest)
    have hrest : ∀ k ∈ rest, job_conflict k x = false :=
      fun k hk => h2 k (List.mem_cons_of_mem j hk)
    simp only [List.cons_append, jobs_unique, Bool.and_eq_true, List.all_eq_true]
    refine ⟨?_, ih h.2 hrest⟩
    intro k hk
    rcases List.mem_append.mp hk with hk | hk
    · exact h.1 k hk
    · simp only [List.mem_singleton] at hk
      subst hk
      simp [hx]

theorem ensure_commit_jobs (s : Store) (sha : String) :
    (s.ensure_commit sha).2.jobs = s.jobs := by
  unfold Store.ensure_commit
  cases s.commits.find? (fun c => c.sha == sha) <;> rfl

theorem jobs_unique_new_job (s : Store) (rid : Nat) (sha : String)
    (source rp : Option String) (h : jobs_unique s.jobs = true) :
    jobs_unique ((s.new_job rid sha source rp).2.jobs) = true := by
  have hj := ensure_commit_jobs s sha
  have h1 : jobs_unique ((s.ensure_commit sha).2.jobs) = true := by
    rw [hj]; exact h
  unfold Store.new_job
  dsimp only
  split
  · exact h1
  · rename_i hfind
    refine jobs_unique_append _ _ h1 ?_
    intro j hmem
    have := List.find?_eq_none.mp hfind j hmem
    simpa [job_conflict] using this

theorem jobs_unique_push (s : Store) (ev : GithubEvent)
    (notify : Nat → List (Except String Unit)) (h : jobs_unique s.jobs = true) :
    jobs_unique ((process_push_event s ev notify).2.jobs) = true := by
  cases ev with
  | Other => exact h
  | Push sha repo hc pusher =>
    simp only [process_push_event]
    split
    · exact h
    · split
      · exact h
      · rename_i rem _
        split
        · exact h
        · split
          · exact h
          · rename_i em _
            exact jobs_unique_new_job s rem.id sha (some em) none h

theorem push_fresh_commit (s : Store) (notify : Nat → List (Except String Unit))
    (sha repo : String) (hc pusher : List (String × JVal)) (rem : Remote)
    (email : String)
    (h1 : s.commits.find? (fun c => c.sha == sha) = none)
    (h2 : s.remotes.find? (fun r => r.remote_git_url
        == ("https://www.github.com/" ++ repo ++ ".git")) = some rem)
    (h3 : jget pusher ("email") = some (JVal.str email))
    (h5 : s.jobs.find? (fun j => j.remote_id == rem.id
        && j.commit_id == s.next_commit_id) = none) :
    process_push_event s (GithubEvent.Push sha repo hc pusher) notify
      = (tell_all (notify rem.repo_id),
         { s with
             commits := s.commits ++ [Commit.mk s.next_commit_id sha],
             jobs := s.jobs ++
               [Job.mk s.next_job_id rem.id s.next_commit_id 0 (some email) none 0],
             next_commit_id := s.next_commit_id + 1,
             next_job_id := s.next_job_id + 1 }) := by
  simp only [process_push_event, h1, h2, h3, JVal.as_str, Store.new_job,
    Store.ensure_commit, h5]

/-- C10: stale() returns true exactly when the state is not Fresh — so names in
state ShortSha are reported stale just like Stale ones — while stringy()
appends the " (stale)" suffix only in state Stale, rendering Fresh and ShortSha
names as the bare name. -/
theorem C10_stale_and_stringy (c : CommitName) :
    (CommitName.stale c = true ↔ c.state ≠ NameState.Fresh)
    ∧ CommitName.stringy c
      = (if c.state = NameState.Stale then c.name ++ " (stale)" else c.name) := by
  obtain ⟨n, st⟩ := c
  cases st <;> simp [CommitName.stale, CommitName.stringy]

/-- C1 counterexample: with the handler as written, a request whose digest
matches a webhook_token known to the Store is still rejected with 400, because
the handler consults only the compile-time PSKS array, which is empty. -/
theorem C1_counterexample : ¬ c1Claim := by
  intro h
  have h2 := h (fun _ => some JVal.null) (fun _ _ => [0]) [[1]] ("sha256=00")
    ("push") [] JVal.null rfl
  have h3 := h2.mp ⟨[1], by simp, by decide⟩
  exact RepoEventOut.noConfusion h3

/-- C1 amended: because the compile-time PSK array PSKS of src/src/main.rs is
empty, the webhook handler rejects every POST with 400 — no request ever
proceeds to event dispatch, regardless of the webhook_token values of the
notifier configs known to the Store. -/
theorem C1_every_request_rejected (parse_json : List Nat → Option JVal)
    (hmac : List Nat → List Nat → List Nat)
    (sig_header event_header : Option String) (body : List Nat) :
    handle_repo_event parse_json hmac sig_header event_header body
      = RepoEventOut.badRequest := by
  unfold handle_repo_event
  cases parse_json body <;> cases sig_header <;> rfl

/-- C4: the status page maps job state Error (stored byte 3) to the display
string pass — styled red like the Invalid branch, while the Complete branch
shows a green pass — where the claim (and the evident intent) says fail. -/
theorem C4_error_state_shows_pass :
    handle_commit_status c4store ("alice") ("foo") ("abc")
      = StatusOut.ok ("foo") ("<span style=\x27color:red;\x27>pass</span>") false
    ∧ job_state_span JobState.Error = "<span style=\x27color:red;\x27>pass</span>"
    ∧ job_state_span JobState.Complete = "<span style=\x27color:green;\x27>pass</span>" := by
  exact ⟨by decide, rfl, rfl⟩

/-- C6: the Validate command of ci-ctl prints ok and exits 0 unconditionally —
it takes no inputs and inspects no remote — even though loading a remote's
config from a config directory missing the file is an error, as the second
conjunct shows for the filesystem where every read fails. -/
theorem C6_validate_is_noop :
    validate_command = (0, "ok")
    ∧ NotifierConfig.github_from_file c6read c6parse ("repo1.config")
      = Except.error ("can\x27t read notifier config at repo1.config") := by
  exact ⟨rfl, rfl⟩

/-- C7 counterexample: run 5 of c7store belongs to job 3, but
`job rerun 5` creates a run whose job_id is 5, not 3: the argument is passed to
new_run directly as a job id, not resolved through the run. -/
theorem C7_counterexample : ¬ c7Claim := by
  intro h
  have h2 := h c7store c7run (by decide)
  exact absurd h2.1 (by decide)

/-- C7 amended: `job rerun <id>` creates a new Pending run with no host
preference whose job_id is the given id itself (the code treats the argument
as a job id and never looks up a run), appending it to the runs table and
leaving jobs and all existing runs unchanged. -/
theorem C7_rerun_uses_arg_as_job_id (s : Store) (which : Nat) :
    (job_rerun s which).1.job_id = which
    ∧ (job_rerun s which).1.state = RunState.Pending
    ∧ (job_rerun s which).1.host_preference = none
    ∧ (job_rerun s which).2.jobs = s.jobs
    ∧ (job_rerun s which).2.runs = s.runs ++ [(job_rerun s which).1] := by
  exact ⟨rfl, rfl, rfl, rfl, rfl⟩

/-- C9 counterexample: the claim that no code path reinterprets a stored state
byte without validation fails at handle_commit_status, which transmutes the
byte unchecked: on a store whose job carries state byte 5 the handler reaches
undefined behavior instead of an error. -/
theorem C9_counterexample : ¬ c9Claim := by
  intro h
  exact h.2.2 c9store ("alice") ("foo") ("abc") (by decide)

/-- C9 amended: RunState's TryFrom is an explicit validated conversion — each
state's own byte converts back to it and exactly the bytes 0..=4 convert
successfully — but handle_commit_status converts the stored job-state byte by
unchecked transmute, reaching undefined behavior on the out-of-range byte 5. -/
theorem C9_tryfrom_validated_but_status_transmutes :
    (∀ st : RunState, RunState.try_from st.toU8 = Except.ok st)
    ∧ (∀ b : Nat, except_is_ok (RunState.try_from b) = decide (b ≤ 4))
    ∧ handle_commit_status c9store ("alice") ("foo") ("abc")
        = StatusOut.undefinedBehavior := by
  refine ⟨?_, ?_, by decide⟩
  · intro st
    cases st <;> rfl
  · intro b
    match b with
    | 0 => rfl
    | 1 => rfl
    | 2 => rfl
    | 3 => rfl
    | 4 => rfl
    | n + 5 => rfl

/-- C2: on a store whose jobs are unique per (remote_id, commit_id), every
push-event processing, new_job and new_run preserves that uniqueness (new_job
refuses to insert a second job for an existing pair), and a push webhook for a
commit sha that already has a commit row — in particular one that already has a
job on the registered remote — returns 200 and leaves the store unchanged. -/
theorem C2_jobs_unique_and_dedup (s : Store)
    (notify : Nat → List (Except String Unit))
    (h : jobs_unique s.jobs = true) :
    (∀ ev, jobs_unique ((process_push_event s ev notify).2.jobs) = true)
    ∧ (∀ rid sha source rp, jobs_unique ((s.new_job rid sha source rp).2.jobs) = true)
    ∧ (∀ jid hp, jobs_unique ((s.new_run jid hp).2.jobs) = true)
    ∧ (∀ (sha repo : String) (hc pusher : List (String × JVal)) (c : Commit)
        (j : Job) (rem : Remote),
        c ∈ s.commits → c.sha = sha → rem ∈ s.remotes →
        j ∈ s.jobs → j.remote_id = rem.id → j.commit_id = c.id →
        process_push_event s (GithubEvent.Push sha repo hc pusher) notify
          = (PushOut.ok, s)) := by
  refine ⟨fun ev => jobs_unique_push s ev notify h,
    fun rid sha source rp => jobs_unique_new_job s rid sha source rp h,
    fun jid hp => h, ?_⟩
  intro sha repo hc pusher c j rem hcmem hcsha _hrm _hj _hjr _hjc
  have hsome : (s.commits.find? (fun c2 => c2.sha == sha)).isSome := by
    exact List.find?_isSome.mpr ⟨c, hcmem, by simp [hcsha]⟩
  obtain ⟨c2, hc2⟩ := Option.isSome_iff_exists.mp hsome
  simp [process_push_event, hc2]

/-- C2 witness: a duplicate push for commit abc, which already has a job on the
registered remote, returns 200 and leaves c2store unchanged; new_job keeps job
uniqueness. -/
theorem C2_witness :
    process_push_event c2store exPush noNotifiers = (PushOut.ok, c2store)
    ∧ jobs_unique ((c2store.new_job 1 ("zzz") none none).2.jobs) = true := by
  have h := C2_jobs_unique_and_dedup c2store noNotifiers (by decide)
  refine ⟨?_, h.2.1 1 ("zzz") none none⟩
  exact h.2.2.2 ("abc") ("alice/foo") [] [(("email"), JVal.str ("a@b.c"))]
    (Commit.mk 1 ("abc")) (Job.mk 1 1 1 0 none none 0) exRemote
    (by decide) rfl (by decide) (by decide) rfl rfl

/-- C3 counterexample: a push for unseen commit abc on registered remote
alice/foo is accepted with 200 and creates the commit row and the job, but no
run at all — refuting the claim that exactly one initial Pending run is
created. -/
theorem C3_counterexample : ¬ c3Claim := by
  intro h
  have h2 := h c3store noNotifiers ("abc") ("alice/foo") []
    [(("email"), JVal.str ("a@b.c"))] rfl (by decide) (by decide)
  exact absurd h2.2.2.1 (by decide)

/-- C3 amended: an accepted push for a previously unseen commit on a
registered remote creates the commit row and the job and returns 200, but
creates no run: the push path never calls new_run (in the old-generation
schema, pending-ness lives on the job row itself). -/
theorem C3_push_creates_no_run (s : Store)
    (notify : Nat → List (Except String Unit)) (sha repo : String)
    (hc pusher : List (String × JVal)) (rem : Remote) (email : String)
    (h1 : s.commits.find? (fun c => c.sha == sha) = none)
    (h2 : s.remotes.find? (fun r => r.remote_git_url
        == ("https://www.github.com/" ++ repo ++ ".git")) = some rem)
    (h3 : jget pusher ("email") = some (JVal.str email))
    (h5 : s.jobs.find? (fun j => j.remote_id == rem.id
        && j.commit_id == s.next_commit_id) = none)
    (h4 : ∀ x ∈ notify rem.repo_id, except_is_ok x = true) :
    process_push_event s (GithubEvent.Push sha repo hc pusher) notify
      = (PushOut.ok,
         { s with
             commits := s.commits ++ [Commit.mk s.next_commit_id sha],
             jobs := s.jobs ++
               [Job.mk s.next_job_id rem.id s.next_commit_id 0 (some email) none 0],
             next_commit_id := s.next_commit_id + 1,
             next_job_id := s.next_job_id + 1 }) := by
  rw [push_fresh_commit s notify sha repo hc pusher rem email h1 h2 h3 h5,
    tell_all_ok _ h4]

/-- C3 witness: the concrete fresh push on c3store returns 200 with commit and
job created and the runs table untouched. -/
theorem C3_witness :
    process_push_event c3store exPush noNotifiers
      = (PushOut.ok,
         { c3store with
             commits := [Commit.mk 1 ("abc")],
             jobs := [Job.mk 1 1 1 0 (some ("a@b.c")) none 0],
             next_commit_id := 2, next_job_id := 2 }) := by
  exact C3_push_creates_no_run c3store noNotifiers ("abc") ("alice/foo") []
    [(("email"), JVal.str ("a@b.c"))] exRemote ("a@b.c")
    rfl (by decide) rfl rfl (by decide)

/-- C5 counterexample: with the single notifier invocation failing, the push
webhook whose store mutations succeeded does not return 200 — the handler
panics on expect("can notify"). -/
theorem C5_counterexample : ¬ c5Claim := by
  intro h
  have h2 := h c3store c5notify ("abc") ("alice/foo") []
    [(("email"), JVal.str ("a@b.c"))] exRemote ("a@b.c") rfl (by decide) rfl
  exact absurd h2 (by decide)

/-- C5 amended: after the store mutations of a fresh push have succeeded, a
failed notifier invocation makes the handler panic (the tell_pending_job
result is unwrapped with expect("can notify")) instead of returning 200; the
mutations performed before the panic remain in the store. -/
theorem C5_notifier_failure_panics (s : Store)
    (notify : Nat → List (Except String Unit)) (sha repo : String)
    (hc pusher : List (String × JVal)) (rem : Remote) (email : String)
    (h1 : s.commits.find? (fun c => c.sha == sha) = none)
    (h2 : s.remotes.find? (fun r => r.remote_git_url
        == ("https://www.github.com/" ++ repo ++ ".git")) = some rem)
    (h3 : jget pusher ("email") = some (JVal.str email))
    (h5 : s.jobs.find? (fun j => j.remote_id == rem.id
        && j.commit_id == s.next_commit_id) = none)
    (h4 : ∃ x ∈ notify rem.repo_id, except_is_ok x = false) :
    process_push_event s (GithubEvent.Push sha repo hc pusher) notify
      = (PushOut.panicked ("can notify"),
         { s with
             commits := s.commits ++ [Commit.mk s.next_commit_id sha],
             jobs := s.jobs ++
               [Job.mk s.next_job_id rem.id s.next_commit_id 0 (some email) none 0],
             next_commit_id := s.next_commit_id + 1,
             next_job_id := s.next_job_id + 1 }) := by
  rw [push_fresh_commit s notify sha repo hc pusher rem email h1 h2 h3 h5,
    tell_all_err _ h4]

/-- C5 witness: the concrete fresh push on c3store with a failing notifier
panics while keeping the commit and job rows. -/
theorem C5_witness :
    process_push_event c3store exPush c5notify
      = (PushOut.panicked ("can notify"),
         { c3store with
             commits := [Commit.mk 1 ("abc")],
             jobs := [Job.mk 1 1 1 0 (some ("a@b.c")) none 0],
             next_commit_id := 2, next_job_id := 2 }) := by
  exact C5_notifier_failure_panics c3store c5notify ("abc") ("alice/foo") []
    [(("email"), JVal.str ("a@b.c"))] exRemote ("a@b.c")
    rfl (by decide) rfl rfl (by decide)

theorem deserialize_github_iff (j : JVal) :
    (∃ t, NotifierConfig.deserialize j = some (NotifierConfig.GitHub t))
      ↔ src_github_shape j := by
  constructor
  · rintro ⟨t, ht⟩
    cases j with
    | obj fields =>
      cases hg : get_str fields ("token") with
      | some tok => exact ⟨fields, tok, rfl, hg⟩
      | none =>
        exfalso
        simp only [NotifierConfig.deserialize, hg] at ht
        split at ht <;> simp_all
    | null => simp [NotifierConfig.deserialize] at ht
    | bool b => simp [NotifierConfig.deserialize] at ht
    | num n => simp [NotifierConfig.deserialize] at ht
    | str st => simp [NotifierConfig.deserialize] at ht
    | arr xs => simp [NotifierConfig.deserialize] at ht
  · rintro ⟨fields, t, rfl, hget⟩
    exact ⟨t, by simp [NotifierConfig.deserialize, hget]⟩

theorem github_from_file_ok_iff (read_file : String → Option String)
    (parse_json : String → Option JVal) (path : String) :
    except_is_ok (NotifierConfig.github_from_file read_file parse_json path) = true
      ↔ ∃ bytes j t, read_file path = some bytes ∧ parse_json bytes = some j
          ∧ NotifierConfig.deserialize j = some (NotifierConfig.GitHub t) := by
  cases hr : read_file path with
  | none => simp [NotifierConfig.github_from_file, hr, except_is_ok]
  | some bytes =>
    cases hp : parse_json bytes with
    | none => simp [NotifierConfig.github_from_file, hr, hp, except_is_ok]
    | some j =>
      cases hd : NotifierConfig.deserialize j with
      | none => simp [NotifierConfig.github_from_file, hr, hp, hd, except_is_ok]
      | some cfg =>
        cases cfg with
        | GitHub t =>
          simp [NotifierConfig.github_from_file, hr, hp, hd, except_is_ok]
        | Email u p m f t =>
          simp [NotifierConfig.github_from_file, hr, hp, hd, except_is_ok]

/-- C8 counterexample: the file parsing to the object with only a token field
does not have the claimed { ci_server, token, webhook_token } shape, yet the
GitHub loader of src/src/notifier.rs accepts it. -/
theorem C8_counterexample : ¬ c8Claim := by
  intro h
  have h2 := (h c8read c8parse ("p")).mp (by decide)
  obtain ⟨bytes, j, hb, hj, hshape⟩ := h2
  have hj2 : some c8json = some j := hj
  injection hj2 with hj2
  subst hj2
  obtain ⟨fields, hf, hcs, _, _⟩ := hshape
  have hf2 : JVal.obj [(("token"), JVal.str ("t"))] = JVal.obj fields := hf
  injection hf2 with hf2
  subst hf2
  exact absurd hcs (by decide)

/-- C8 amended: for the loader in src/src/notifier.rs the GitHub config shape
is an object with a string token field (serde untagged matching, other fields
ignored): github_from_file succeeds exactly when the file reads and parses to
such an object, and a file deserializing to the Email variant is a hard
error. -/
theorem C8_github_loader_shape (read_file : String → Option String)
    (parse_json : String → Option JVal) (path : String) :
    (except_is_ok (NotifierConfig.github_from_file read_file parse_json path) = true
      ↔ (∃ bytes j, read_file path = some bytes ∧ parse_json bytes = some j
          ∧ src_github_shape j))
    ∧ (∀ bytes j u p m f t, read_file path = some bytes → parse_json bytes = some j →
        NotifierConfig.deserialize j = some (NotifierConfig.Email u p m f t) →
        NotifierConfig.github_from_file read_file parse_json path
          = Except.error ("config at " ++ path ++
              " doesn\x27t look like a github config (but was otherwise valid?)")) := by
  constructor
  · rw [github_from_file_ok_iff]
    constructor
    · rintro ⟨bytes, j, t, hb, hj, hd⟩
      exact ⟨bytes, j, hb, hj, (deserialize_github_iff j).mp ⟨t, hd⟩⟩
    · rintro ⟨bytes, j, hb, hj, hshape⟩
      obtain ⟨t, hd⟩ := (deserialize_github_iff j).mpr hshape
      exact ⟨bytes, j, t, hb, hj, hd⟩
  · intro bytes j u p m f t hb hj hd
    simp [NotifierConfig.github_from_file, hb, hj, hd]

/-- C8 witness: the token-only file loads successfully, and the email-shaped
file is rejected with the hard error. -/
theorem C8_witness :
    except_is_ok (NotifierConfig.github_from_file c8read c8parse ("p")) = true
    ∧ NotifierConfig.github_from_file c8read c8mailparse ("mail.config")
      = Except.error ("config at mail.config doesn\x27t look like a github config (but was otherwise valid?)") := by
  constructor
  · exact (C8_github_loader_shape c8read c8parse ("p")).1.mpr
      ⟨("x"), c8json, rfl, rfl,
        ⟨[(("token"), JVal.str ("t"))], ("t"), rfl, rfl⟩⟩
  · exact (C8_github_loader_shape c8read c8mailparse ("mail.config")).2
      ("x") c8mailjson ("u") ("p") ("m") ("f") ("t") rfl rfl (by decide)

end Ci
